import Mathlib

/-!
Shallow embedding of the LocalChefBazaar server core (src/index.js):
the role-transition and order-lifecycle workflow.

Modelling conventions:
* MongoDB collections are lists of records; `findOne` is `List.find?` on the
  key predicate and `updateOne` applies `$set` to the first matching record
  (`updateFirst`).  `insertOne` appends, refusing a duplicate `_id` (MongoDB
  enforces a unique index on `_id`).
* MongoDB rejects an update document whose `$set` and `$setOnInsert` share a
  field path (ConflictingUpdateOperators); `conflictingUpdate` models that
  gate for the PUT /users handler, whose `$setOnInsert` keys are
  role/status/createdAt.
* Dates are modelled as `Nat` timestamps supplied to handlers (`now`).
* `Math.floor(1000 + Math.random() * 9000)` is modelled by a parameter
  `k < 9000` standing for `Math.floor(Math.random() * 9000)`, the chef
  number being `1000 + k`.
* A JavaScript runtime TypeError (dereferencing `null`) is modelled by the
  distinguished response `Resp.crash`, as is a rejected MongoDB write.
-/

namespace LocalChefBazaar

/-- An Account document in the `users` collection. -/
structure Account where
  email : String
  role : String
  status : String
  chefId : Option String := none
  name : Option String := none
  createdAt : Nat := 0
  updatedAt : Nat := 0
  deriving DecidableEq

/-- An ElevationRequest document in the `requests` collection. -/
structure ElevationRequest where
  rid : Nat
  userEmail : String
  requestType : String
  requestStatus : String
  requestTime : Nat := 0
  deriving DecidableEq

/-- An Order document in the `orders` collection. -/
structure Order where
  oid : Nat
  userEmail : String
  chefId : String := ""
  price : Nat := 0
  quantity : Nat := 0
  orderStatus : String
  paymentStatus : String
  orderTime : Nat := 0
  deriving DecidableEq

/-- The three stores the workflow core touches. -/
structure DB where
  users : List Account
  requests : List ElevationRequest
  orders : List Order
  deriving DecidableEq

/-- `updateOne` with a `$set`: rewrite the first record matching `p`. -/
def updateFirst {α : Type} (p : α → Bool) (f : α → α) : List α → List α
  | [] => []
  | x :: xs => if p x then f x :: xs else x :: updateFirst p f xs

/-- `usersCollection.findOne({email})`. -/
def findUser (users : List Account) (e : String) : Option Account :=
  users.find? (fun u => u.email == e)

/-- `requestsCollection.findOne({_id})`. -/
def findRequest (rs : List ElevationRequest) (i : Nat) : Option ElevationRequest :=
  rs.find? (fun r => r.rid == i)

/-- `ordersCollection.findOne({_id})`. -/
def findOrder (os : List Order) (i : Nat) : Option Order :=
  os.find? (fun o => o.oid == i)

/-- The response a handler sends. -/
inductive Resp where
  | ok (matched : Nat)
  | userIs (u : Option Account)
  | roleIs (r : String)
  | forbidden (msg : String)
  | notFound (msg : String)
  | badRequest (msg : String)
  | crash
  deriving DecidableEq

/-- The role the authorization checks read: `user?.role` for the caller. -/
def roleOfCaller (db : DB) (e : String) : Option String :=
  (findUser db.users e).map Account.role

/-- A PUT /users request body: each field is present or absent. -/
structure UserBody where
  email : Option String := none
  role : Option String := none
  status : Option String := none
  chefId : Option String := none
  name : Option String := none
  createdAt : Option Nat := none
  deriving DecidableEq

/-- The `$set` document of PUT /users spreads the body and adds `updatedAt`;
its keys collide with the `$setOnInsert` keys (role, status, createdAt)
exactly when the body carries one of those, and MongoDB rejects such an
update document outright. -/
def conflictingUpdate (b : UserBody) : Bool :=
  b.role.isSome || b.status.isSome || b.createdAt.isSome

/-- Apply the `$set` document of PUT /users to an existing account:
every body field present overwrites, plus `updatedAt := now`. -/
def applySet (b : UserBody) (now : Nat) (u : Account) : Account :=
  { u with
    email := b.email.getD u.email
    role := b.role.getD u.role
    status := b.status.getD u.status
    chefId := match b.chefId with | some c => some c | none => u.chefId
    name := match b.name with | some n => some n | none => u.name
    createdAt := b.createdAt.getD u.createdAt
    updatedAt := now }

/-- The document an upsert inserts when no account matched: the `$set`
fields over the `$setOnInsert` defaults role="user", status="active",
createdAt=now. -/
def insertViaUpsert (b : UserBody) (now : Nat) : Account :=
  applySet b now { email := "", role := "user", status := "active", createdAt := now }

/-- PUT /users (index.js:142-163): overwrite the body email with the verified
token email, then upsert on that email. -/
def putUsers (db : DB) (tokenEmail : String) (body : UserBody) (now : Nat) :
    Resp × DB :=
  let b := { body with email := some tokenEmail }
  if conflictingUpdate b then
    (Resp.crash, db)
  else
    let users' :=
      match findUser db.users tokenEmail with
      | some _ => updateFirst (fun u => u.email == tokenEmail) (applySet b now) db.users
      | none => db.users ++ [insertViaUpsert b now]
    (Resp.userIs (findUser users' tokenEmail), { db with users := users' })

/-- GET /user/role/:email (index.js:176-182): self-only, then
`user?.role || "user"` (the empty string is falsy in JavaScript). -/
def getUserRole (db : DB) (tokenEmail paramEmail : String) : Resp :=
  if tokenEmail != paramEmail then
    Resp.forbidden "Forbidden"
  else
    match findUser db.users paramEmail with
    | some u => Resp.roleIs (if u.role == "" then "user" else u.role)
    | none => Resp.roleIs "user"

/-- A POST /orders request body (fields the handler keeps or overwrites). -/
structure OrderBody where
  chefId : String := ""
  price : Nat := 0
  quantity : Nat := 0
  orderStatus : String := ""
  paymentStatus : String := ""
  deriving DecidableEq

/-- The Order document POST /orders builds: the body with userEmail,
orderTime, orderStatus and paymentStatus overwritten. -/
def mkOrder (tokenEmail : String) (b : OrderBody) (now oid : Nat) : Order :=
  { oid := oid
    userEmail := tokenEmail
    chefId := b.chefId
    price := b.price
    quantity := b.quantity
    orderStatus := "pending"
    paymentStatus := "Pending"
    orderTime := now }

/-- `insertOne`: append unless the generated `_id` already exists. -/
def insertOrder (os : List Order) (o : Order) : List Order :=
  if os.any (fun x => x.oid == o.oid) then os else os ++ [o]

/-- POST /orders (index.js:258-266). -/
def postOrders (db : DB) (tokenEmail : String) (b : OrderBody) (now oid : Nat) :
    Resp × DB :=
  (Resp.ok 1, { db with orders := insertOrder db.orders (mkOrder tokenEmail b now oid) })

/-- PATCH /orders/:id (index.js:286-293): overwrite orderStatus. -/
def patchOrderStatus (db : DB) (oid : Nat) (st : String) : Resp × DB :=
  (Resp.ok (if (findOrder db.orders oid).isSome then 1 else 0),
   { db with orders := (updateFirst (fun o => o.oid == oid)
       (fun o => { o with orderStatus := st }) db.orders) })

/-- PATCH /orders/:id/pay (index.js:295-301): set paymentStatus to "paid". -/
def payOrder (db : DB) (oid : Nat) : Resp × DB :=
  (Resp.ok (if (findOrder db.orders oid).isSome then 1 else 0),
   { db with orders := (updateFirst (fun o => o.oid == oid)
       (fun o => { o with paymentStatus := "paid" }) db.orders) })

/-- The order operations of the spec's Order Ledger. -/
inductive OrderOp where
  | place (tokenEmail : String) (b : OrderBody) (now oid : Nat)
  | setStatus (oid : Nat) (st : String)
  | pay (oid : Nat)

/-- Effect of one order operation on the stores. -/
def applyOrderOp (db : DB) : OrderOp → DB
  | .place e b now oid => (postOrders db e b now oid).2
  | .setStatus oid st => (patchOrderStatus db oid st).2
  | .pay oid => (payOrder db oid).2

/-- Effect of a sequence of order operations. -/
def applyOrderOps (db : DB) (ops : List OrderOp) : DB :=
  ops.foldl applyOrderOp db

/-- Order `i` exists and its paymentStatus is "paid". -/
def orderPaid (db : DB) (i : Nat) : Prop :=
  (findOrder db.orders i).map Order.paymentStatus = some "paid"

/-- The chef identifier the approval path generates:
`chef-${Math.floor(1000 + Math.random() * 9000)}` with
`k = Math.floor(Math.random() * 9000)`. -/
def mkChefId (k : Nat) : String :=
  "chef-" ++ Nat.repr (1000 + k)

/-- PATCH /requests/:id (index.js:321-353): admin gate, unconditional
requestStatus write, then on "approved" a read-back and the conditional
account mutation.  Reading `request.requestType` when the read-back found
nothing is a TypeError on `null`, modelled as `Resp.crash`. -/
def patchRequest (db : DB) (callerEmail : String) (id : Nat) (status : String)
    (k : Nat) : Resp × DB :=
  if roleOfCaller db callerEmail != some "admin" then
    (Resp.forbidden "Admin only", db)
  else
    let matched : Nat := if (findRequest db.requests id).isSome then 1 else 0
    let requests' := updateFirst (fun r => r.rid == id)
      (fun r => { r with requestStatus := status }) db.requests
    if status == "approved" then
      match findRequest requests' id with
      | none => (Resp.crash, { db with requests := requests' })
      | some r =>
        if r.requestType == "chef" then
          (Resp.ok matched,
           { db with
             requests := requests',
             users := (updateFirst (fun u => u.email == r.userEmail)
               (fun u => { u with role := "chef", chefId := some (mkChefId k) })
               db.users) })
        else if r.requestType == "admin" then
          (Resp.ok matched,
           { db with
             requests := requests',
             users := (updateFirst (fun u => u.email == r.userEmail)
               (fun u => { u with role := "admin" }) db.users) })
        else
          (Resp.ok matched, { db with requests := requests' })
    else
      (Resp.ok matched, { db with requests := requests' })

/-- PATCH /users/fraud/:email (index.js:479-500). -/
def patchUserFraud (db : DB) (callerEmail targetEmail : String) : Resp × DB :=
  if roleOfCaller db callerEmail != some "admin" then
    (Resp.forbidden "Admin access required", db)
  else
    match findUser db.users targetEmail with
    | none => (Resp.notFound "User not found", db)
    | some t =>
      if t.role == "admin" then
        (Resp.badRequest "Cannot mark admin as fraud", db)
      else
        (Resp.ok 1,
         { db with users := (updateFirst (fun u => u.email == targetEmail)
             (fun u => { u with status := "fraud" }) db.users) })

/-! ### Generic lemmas about the store primitives -/

/-- Updating the first `p`-match rewrites exactly the record `find?` returns,
provided `f` keeps the key (`p`) satisfied. -/
theorem find?_updateFirst {α : Type} (p : α → Bool) (f : α → α)
    (hpf : ∀ x, p x = true → p (f x) = true) (l : List α) :
    ∀ a, l.find? p = some a → (updateFirst p f l).find? p = some (f a) := by
  induction l with
  | nil => intro a h; simp [List.find?] at h
  | cons x xs ih =>
    intro a h
    by_cases hx : p x = true
    · rw [List.find?_cons_of_pos _ hx] at h
      injection h with h; subst h
      have hfx := hpf _ hx
      simp only [updateFirst, hx, if_true]
      exact List.find?_cons_of_pos _ hfx
    · have hx' : p x = false := by simpa using hx
      rw [List.find?_cons_of_neg _ hx] at h
      simp only [updateFirst, hx', Bool.false_eq_true, if_false]
      rw [List.find?_cons_of_neg _ hx]
      exact ih a h

/-- A record found by key `q` survives an `updateFirst` on any predicate `p`
when `f` preserves the key and the property `P`. -/
theorem find?_updateFirst_pres {α : Type} (q p : α → Bool) (f : α → α)
    (P : α → Prop) (hq : ∀ x, q (f x) = q x) (hP : ∀ x, P x → P (f x))
    (l : List α) :
    ∀ a, l.find? q = some a → P a →
      ∃ b, (updateFirst p f l).find? q = some b ∧ P b := by
  induction l with
  | nil => intro a h _; simp [List.find?] at h
  | cons x xs ih =>
    intro a h hPa
    by_cases hpx : p x = true
    · simp only [updateFirst, hpx, if_true]
      by_cases hqx : q x = true
      · rw [List.find?_cons_of_pos _ hqx] at h
        injection h with h; subst h
        exact ⟨f x, List.find?_cons_of_pos _ (by rw [hq]; exact hqx), hP _ hPa⟩
      · rw [List.find?_cons_of_neg _ hqx] at h
        refine ⟨a, ?_, hPa⟩
        have hqfx : ¬ q (f x) = true := by rw [hq]; exact hqx
        rw [List.find?_cons_of_neg _ hqfx]
        exact h
    · have hpx' : p x = false := by simpa using hpx
      simp only [updateFirst, hpx', Bool.false_eq_true, if_false]
      by_cases hqx : q x = true
      · rw [List.find?_cons_of_pos _ hqx] at h
        injection h with h; subst h
        exact ⟨x, List.find?_cons_of_pos _ hqx, hPa⟩
      · rw [List.find?_cons_of_neg _ hqx] at h
        obtain ⟨b, hb, hPb⟩ := ih a h hPa
        refine ⟨b, ?_, hPb⟩
        rw [List.find?_cons_of_neg _ hqx]
        exact hb

/-- A record found in the left part of an append is found in the whole. -/
theorem find?_append_some {α : Type} (p : α → Bool) (l₁ l₂ : List α) (a : α)
    (h : l₁.find? p = some a) : (l₁ ++ l₂).find? p = some a := by
  rw [List.find?_append, h]; rfl

/-- When the left part of an append has no match, `find?` falls through. -/
theorem find?_append_none {α : Type} (p : α → Bool) (l₁ l₂ : List α)
    (h : l₁.find? p = none) : (l₁ ++ l₂).find? p = l₂.find? p := by
  rw [List.find?_append, h]; rfl

/-! ### Decimal length of the chef number -/

/-- One division step of `Nat.toDigitsCore` when more digits remain. -/
theorem toDigitsCore_step (fuel n : Nat) (ds : List Char) (hf : 0 < fuel)
    (h : n / 10 ≠ 0) :
    Nat.toDigitsCore 10 fuel n ds =
      Nat.toDigitsCore 10 (fuel - 1) (n / 10) (Nat.digitChar (n % 10) :: ds) := by
  cases fuel with
  | zero => omega
  | succ f => simp [Nat.toDigitsCore, h]

/-- The final step of `Nat.toDigitsCore` on a one-digit number. -/
theorem toDigitsCore_stop (fuel n : Nat) (ds : List Char) (hf : 0 < fuel)
    (h : n / 10 = 0) :
    Nat.toDigitsCore 10 fuel n ds = Nat.digitChar (n % 10) :: ds := by
  cases fuel with
  | zero => omega
  | succ f => simp [Nat.toDigitsCore, h]

/-- The decimal representation of a number in `[1000, 9999]` has exactly four
characters. -/
theorem repr_length_of_four_digits (n : Nat) (h1 : 1000 ≤ n) (h2 : n ≤ 9999) :
    (Nat.repr n).length = 4 := by
  have d1 : n / 10 ≠ 0 := by omega
  have d2 : n / 10 / 10 ≠ 0 := by rw [Nat.div_div_eq_div_mul]; omega
  have d3 : n / 10 / 10 / 10 ≠ 0 := by
    rw [Nat.div_div_eq_div_mul, Nat.div_div_eq_div_mul]; omega
  have d4 : n / 10 / 10 / 10 / 10 = 0 := by
    rw [Nat.div_div_eq_div_mul, Nat.div_div_eq_div_mul, Nat.div_div_eq_div_mul]
    omega
  show (List.asString (Nat.toDigitsCore 10 (n + 1) n [])).length = 4
  rw [toDigitsCore_step (n + 1) n [] (by omega) d1]
  rw [toDigitsCore_step _ _ _ (by omega) d2]
  rw [toDigitsCore_step _ _ _ (by omega) d3]
  rw [toDigitsCore_stop _ _ _ (by omega) d4]
  rfl

/-! ### The requests component of PATCH /requests/:id -/

/-- Whatever the approval branch does to `users`, the `requests` store ends up
holding the unconditional `requestStatus` write (or is untouched when the
caller is not an admin). -/
theorem patchRequest_requests (db : DB) (c : String) (id : Nat) (status : String)
    (k : Nat) :
    (patchRequest db c id status k).2.requests =
      if (roleOfCaller db c != some "admin") = true then db.requests
      else updateFirst (fun r => r.rid == id)
        (fun r => { r with requestStatus := status }) db.requests := by
  unfold patchRequest
  by_cases hadm : (roleOfCaller db c != some "admin") = true
  · simp only [if_pos hadm]
  · simp only [if_neg hadm]
    by_cases happ : (status == "approved") = true
    · simp only [if_pos happ]
      rcases hfind : findRequest (updateFirst (fun r => r.rid == id)
          (fun r => { r with requestStatus := status }) db.requests) id with _ | r
      · rfl
      · by_cases hchef : (r.requestType == "chef") = true
        · simp only [if_pos hchef]
        · simp only [if_neg hchef]
          by_cases hadm2 : (r.requestType == "admin") = true
          · simp only [if_pos hadm2]
          · simp only [if_neg hadm2]
    · simp only [if_neg happ]

/-! ### Claim C1 -/

/-- The database of the C1 counterexample: an admin caller and a request
already in the terminal state "approved". -/
def c1db : DB :=
  { users := [{ email := "adm@x", role := "admin", status := "active" }],
    requests := [{ rid := 1, userEmail := "a@x", requestType := "chef",
                   requestStatus := "approved" }],
    orders := [] }

/-- Claim C1, counterexample: transition on an already-approved request with
targetStatus "rejected" rewrites requestStatus to "rejected" instead of
leaving the record unchanged — the handler has no terminal-state guard. -/
theorem c1_terminal_status_rewritten :
    findRequest c1db.requests 1 =
      some { rid := 1, userEmail := "a@x", requestType := "chef",
             requestStatus := "approved" } ∧
    findRequest (patchRequest c1db "adm@x" 1 "rejected" 0).2.requests 1 =
      some { rid := 1, userEmail := "a@x", requestType := "chef",
             requestStatus := "rejected" } := by
  decide

/-- Claim C1 (amended): re-invoking transition with the SAME targetStatus as
the request's current requestStatus leaves the request record unchanged; a
different targetStatus overwrites requestStatus, since the handler writes it
unconditionally. -/
theorem c1_same_target_noop (db : DB) (c : String) (id k : Nat)
    (r : ElevationRequest) (hr : findRequest db.requests id = some r) :
    findRequest (patchRequest db c id r.requestStatus k).2.requests id = some r := by
  rw [patchRequest_requests]
  by_cases hadm : (roleOfCaller db c != some "admin") = true
  · rw [if_pos hadm]; exact hr
  · rw [if_neg hadm]
    simp only [findRequest] at hr ⊢
    exact find?_updateFirst (fun x => x.rid == id)
      (fun x => { x with requestStatus := r.requestStatus })
      (fun x hx => hx) db.requests r hr

/-- The database of the C1 witness: a request already rejected. -/
def c1wdb : DB :=
  { users := [{ email := "adm@x", role := "admin", status := "active" }],
    requests := [{ rid := 2, userEmail := "b@x", requestType := "admin",
                   requestStatus := "rejected" }],
    orders := [] }

/-- Witness for C1 (amended): re-rejecting an already-rejected request leaves
its record unchanged. -/
theorem c1_witness :
    findRequest (patchRequest c1wdb "adm@x" 2 "rejected" 0).2.requests 2 =
      some { rid := 2, userEmail := "b@x", requestType := "admin",
             requestStatus := "rejected" } :=
  c1_same_target_noop c1wdb "adm@x" 2 0
    { rid := 2, userEmail := "b@x", requestType := "admin",
      requestStatus := "rejected" } (by decide)

/-! ### Claim C6 -/

/-- Claim C6: a caller whose account does not have role "admin" gets
Forbidden from PATCH /requests/:id and no store is modified. -/
theorem c6_non_admin_forbidden (db : DB) (c : String) (id : Nat) (st : String)
    (k : Nat) (h : roleOfCaller db c ≠ some "admin") :
    patchRequest db c id st k = (Resp.forbidden "Admin only", db) := by
  unfold patchRequest
  rw [if_pos (bne_iff_ne.mpr h)]

/-- The database of the C6 witness: the caller is a plain user. -/
def c6db : DB :=
  { users := [{ email := "u@x", role := "user", status := "active" }],
    requests := [{ rid := 1, userEmail := "u@x", requestType := "chef",
                   requestStatus := "pending" }],
    orders := [] }

/-- Witness for C6. -/
theorem c6_witness :
    roleOfCaller c6db "u@x" ≠ some "admin" ∧
    patchRequest c6db "u@x" 1 "approved" 0 = (Resp.forbidden "Admin only", c6db) :=
  ⟨by decide, c6_non_admin_forbidden c6db "u@x" 1 "approved" 0 (by decide)⟩

/-! ### Claim C7 -/

/-- Claim C7: GET /user/role/:email with a verified email different from the
path email yields Forbidden, before any account (and hence any role) is
consulted. -/
theorem c7_role_self_only (db : DB) (tok par : String) (h : tok ≠ par) :
    getUserRole db tok par = Resp.forbidden "Forbidden" := by
  unfold getUserRole
  rw [if_pos (bne_iff_ne.mpr h)]

/-- The database of the C7 witness: the target is an admin, the caller is
asking about somebody else. -/
def c7db : DB :=
  { users := [{ email := "t@x", role := "admin", status := "active" }],
    requests := [], orders := [] }

/-- Witness for C7. -/
theorem c7_witness :
    ("me@x" : String) ≠ "t@x" ∧
    getUserRole c7db "me@x" "t@x" = Resp.forbidden "Forbidden" :=
  ⟨by decide, c7_role_self_only c7db "me@x" "t@x" (by decide)⟩

/-! ### Claim C8 -/

/-- The database of the C8 evaluation: an admin caller, no request stored. -/
def c8db : DB :=
  { users := [{ email := "adm@x", role := "admin", status := "active" }],
    requests := [], orders := [] }

/-- Claim C8 (code bug): with no request of the given id, approving crashes on
the null read-back (`request.requestType` TypeError) and rejecting answers
with a success update-result of zero matches; neither path produces the 404
the spec promises. -/
theorem c8_missing_request_not_404 :
    (patchRequest c8db "adm@x" 7 "approved" 0).1 = Resp.crash ∧
    (patchRequest c8db "adm@x" 7 "rejected" 0).1 = Resp.ok 0 := by
  decide

/-! ### Claim C2 -/

/-- Full characterization of an approval by an admin: the status write, then
the account mutation chosen by the read-back record `r'`. -/
theorem patchRequest_approved_eq (db : DB) (c : String) (id k : Nat)
    (r' : ElevationRequest)
    (hadm : roleOfCaller db c = some "admin")
    (hkey : findRequest (updateFirst (fun x => x.rid == id)
      (fun x => { x with requestStatus := "approved" }) db.requests) id = some r') :
    patchRequest db c id "approved" k =
      (Resp.ok (if (findRequest db.requests id).isSome then 1 else 0),
       { db with
         requests := (updateFirst (fun x => x.rid == id)
           (fun x => { x with requestStatus := "approved" }) db.requests),
         users :=
           (if (r'.requestType == "chef") = true then
             updateFirst (fun u => u.email == r'.userEmail)
               (fun u => { u with role := "chef", chefId := some (mkChefId k) })
               db.users
           else if (r'.requestType == "admin") = true then
             updateFirst (fun u => u.email == r'.userEmail)
               (fun u => { u with role := "admin" }) db.users
           else db.users) }) := by
  have hadm' : ¬ (roleOfCaller db c != some "admin") = true := by
    simp [hadm]
  unfold patchRequest
  rw [if_neg hadm', if_pos (by rfl : (("approved" : String) == "approved") = true)]
  rw [hkey]
  by_cases hchef : (r'.requestType == "chef") = true
  · simp only [if_pos hchef]
  · simp only [if_neg hchef]
    by_cases hadm2 : (r'.requestType == "admin") = true
    · simp only [if_pos hadm2]
    · simp only [if_neg hadm2]

/-- Claim C2: approving first writes requestStatus="approved", then acts on
the read-back request: a chef request gives the account role "chef" and
chefId `chef-` followed by 1000+k, a four-digit number in [1000, 9999] when
k < 9000 models the uniform draw; an admin request gives role "admin". -/
theorem c2_approval_effects (db : DB) (c : String) (id k : Nat)
    (r : ElevationRequest) (a : Account)
    (hadmin : roleOfCaller db c = some "admin")
    (hr : findRequest db.requests id = some r)
    (ha : findUser db.users r.userEmail = some a)
    (hk : k < 9000) :
    findRequest (patchRequest db c id "approved" k).2.requests id =
      some { r with requestStatus := "approved" } ∧
    (r.requestType = "chef" →
      findUser (patchRequest db c id "approved" k).2.users r.userEmail =
        some { a with role := "chef", chefId := some (mkChefId k) } ∧
      mkChefId k = "chef-" ++ Nat.repr (1000 + k) ∧
      1000 ≤ 1000 + k ∧ 1000 + k ≤ 9999 ∧
      (Nat.repr (1000 + k)).length = 4) ∧
    (r.requestType = "admin" →
      findUser (patchRequest db c id "approved" k).2.users r.userEmail =
        some { a with role := "admin" }) := by
  have hkey : findRequest (updateFirst (fun x => x.rid == id)
      (fun x => { x with requestStatus := "approved" }) db.requests) id =
      some { r with requestStatus := "approved" } := by
    simp only [findRequest] at hr ⊢
    exact find?_updateFirst (fun x => x.rid == id)
      (fun x => { x with requestStatus := "approved" })
      (fun x hx => hx) db.requests r hr
  rw [patchRequest_approved_eq db c id k { r with requestStatus := "approved" }
      hadmin hkey]
  refine ⟨hkey, fun hchef => ?_, fun hadm2 => ?_⟩
  · have hc : (({ r with requestStatus := "approved" } :
        ElevationRequest).requestType == "chef") = true := by
      show (r.requestType == "chef") = true
      rw [hchef]; rfl
    simp only [if_pos hc]
    refine ⟨?_, rfl, by omega, by omega,
      repr_length_of_four_digits (1000 + k) (by omega) (by omega)⟩
    simp only [findUser] at ha ⊢
    exact find?_updateFirst (fun u => u.email == r.userEmail)
      (fun u => { u with role := "chef", chefId := some (mkChefId k) })
      (fun x hx => hx) db.users a ha
  · have hc1 : ¬ (({ r with requestStatus := "approved" } :
        ElevationRequest).requestType == "chef") = true := by
      show ¬ (r.requestType == "chef") = true
      rw [hadm2]; decide
    have hc2 : (({ r with requestStatus := "approved" } :
        ElevationRequest).requestType == "admin") = true := by
      show (r.requestType == "admin") = true
      rw [hadm2]; rfl
    simp only [if_neg hc1, if_pos hc2]
    simp only [findUser] at ha ⊢
    exact find?_updateFirst (fun u => u.email == r.userEmail)
      (fun u => { u with role := "admin" })
      (fun x hx => hx) db.users a ha

/-- The database of the C2 witness: an admin, a plain user, and that user's
pending chef request. -/
def c2db : DB :=
  { users := [{ email := "adm@x", role := "admin", status := "active" },
              { email := "a@x", role := "user", status := "active" }],
    requests := [{ rid := 1, userEmail := "a@x", requestType := "chef",
                   requestStatus := "pending" }],
    orders := [] }

/-- The request of the C2 witness. -/
def c2req : ElevationRequest :=
  { rid := 1, userEmail := "a@x", requestType := "chef",
    requestStatus := "pending" }

/-- The account of the C2 witness. -/
def c2acct : Account :=
  { email := "a@x", role := "user", status := "active" }

/-- Witness for C2: approving the pending chef request with k = 234 makes the
user a chef with chefId "chef-1234". -/
theorem c2_witness :
    findRequest (patchRequest c2db "adm@x" 1 "approved" 234).2.requests 1 =
      some { c2req with requestStatus := "approved" } ∧
    (c2req.requestType = "chef" →
      findUser (patchRequest c2db "adm@x" 1 "approved" 234).2.users
          c2req.userEmail =
        some { c2acct with role := "chef", chefId := some (mkChefId 234) } ∧
      mkChefId 234 = "chef-" ++ Nat.repr (1000 + 234) ∧
      1000 ≤ 1000 + 234 ∧ 1000 + 234 ≤ 9999 ∧
      (Nat.repr (1000 + 234)).length = 4) ∧
    (c2req.requestType = "admin" →
      findUser (patchRequest c2db "adm@x" 1 "approved" 234).2.users
          c2req.userEmail = some { c2acct with role := "admin" }) :=
  c2_approval_effects c2db "adm@x" 1 234 c2req c2acct (by decide) (by decide)
    (by decide) (by decide)

/-! ### Claim C3 -/

/-- The email the `$set` document writes is always the token email. -/
theorem applySet_email (b : UserBody) (e : String) (now : Nat) (u : Account) :
    (applySet { b with email := some e } now u).email = e := rfl

/-- The database of the C3 counterexample: one user who already owns a
chefId. -/
def c3db : DB :=
  { users := [{ email := "u@x", role := "user", status := "active",
                chefId := some "chef-1234" }],
    requests := [], orders := [] }

/-- Claim C3, counterexample: PUT /users with a body that carries a chefId
overwrites the stored chefId of the existing account, because the handler
spreads the whole body into `$set`. -/
theorem c3_chefId_overwritten :
    (findUser c3db.users "u@x").map Account.chefId = some (some "chef-1234") ∧
    (findUser (putUsers c3db "u@x" { chefId := some "hack" } 5).2.users
        "u@x").map Account.chefId = some (some "hack") := by
  decide

/-- Claim C3 (amended): PUT /users never changes role, status or createdAt of
an existing account — a body carrying any of them collides with
`$setOnInsert` and the store rejects the whole update — and role, status and
createdAt are defaulted exactly on insert; a body-supplied chefId, however,
does overwrite the stored one (see the counterexample). -/
theorem c3_role_status_frame (db : DB) (e : String) (b : UserBody) (now : Nat) :
    (∀ a, findUser db.users e = some a →
      conflictingUpdate { b with email := some e } = true →
      (putUsers db e b now).2 = db) ∧
    (∀ a, findUser db.users e = some a →
      conflictingUpdate { b with email := some e } = false →
      findUser (putUsers db e b now).2.users e =
        some (applySet { b with email := some e } now a) ∧
      (applySet { b with email := some e } now a).role = a.role ∧
      (applySet { b with email := some e } now a).status = a.status ∧
      (applySet { b with email := some e } now a).createdAt = a.createdAt) ∧
    (findUser db.users e = none →
      conflictingUpdate { b with email := some e } = false →
      findUser (putUsers db e b now).2.users e =
        some (insertViaUpsert { b with email := some e } now) ∧
      (insertViaUpsert { b with email := some e } now).role = "user" ∧
      (insertViaUpsert { b with email := some e } now).status = "active" ∧
      (insertViaUpsert { b with email := some e } now).createdAt = now) := by
  refine ⟨fun a ha hc => ?_, fun a ha hc => ?_, fun ha hc => ?_⟩
  · unfold putUsers
    rw [if_pos hc]
  · have hbr : b.role = none := by
      cases hb : b.role with
      | none => rfl
      | some v =>
        exfalso
        have ht : conflictingUpdate { b with email := some e } = true := by
          simp [conflictingUpdate, hb]
        rw [ht] at hc
        exact absurd hc (by decide)
    have hbs : b.status = none := by
      cases hb : b.status with
      | none => rfl
      | some v =>
        exfalso
        have ht : conflictingUpdate { b with email := some e } = true := by
          simp [conflictingUpdate, hb]
        rw [ht] at hc
        exact absurd hc (by decide)
    have hbc : b.createdAt = none := by
      cases hb : b.createdAt with
      | none => rfl
      | some v =>
        exfalso
        have ht : conflictingUpdate { b with email := some e } = true := by
          simp [conflictingUpdate, hb]
        rw [ht] at hc
        exact absurd hc (by decide)
    refine ⟨?_, by simp [applySet, hbr], by simp [applySet, hbs],
      by simp [applySet, hbc]⟩
    unfold putUsers
    rw [if_neg (by rw [hc]; decide)]
    simp only [findUser] at ha ⊢
    rw [ha]
    exact find?_updateFirst (fun u => u.email == e)
      (applySet { b with email := some e } now)
      (fun x _ => by simp [applySet_email]) db.users a ha
  · have hbr : b.role = none := by
      cases hb : b.role with
      | none => rfl
      | some v =>
        exfalso
        have ht : conflictingUpdate { b with email := some e } = true := by
          simp [conflictingUpdate, hb]
        rw [ht] at hc
        exact absurd hc (by decide)
    have hbs : b.status = none := by
      cases hb : b.status with
      | none => rfl
      | some v =>
        exfalso
        have ht : conflictingUpdate { b with email := some e } = true := by
          simp [conflictingUpdate, hb]
        rw [ht] at hc
        exact absurd hc (by decide)
    have hbc : b.createdAt = none := by
      cases hb : b.createdAt with
      | none => rfl
      | some v =>
        exfalso
        have ht : conflictingUpdate { b with email := some e } = true := by
          simp [conflictingUpdate, hb]
        rw [ht] at hc
        exact absurd hc (by decide)
    refine ⟨?_, by simp [insertViaUpsert, applySet, hbr],
      by simp [insertViaUpsert, applySet, hbs],
      by simp [insertViaUpsert, applySet, hbc]⟩
    unfold putUsers
    rw [if_neg (by rw [hc]; decide)]
    simp only [findUser] at ha ⊢
    rw [ha]
    rw [find?_append_none _ _ _ ha]
    rw [List.find?_cons_of_pos _ (by simp [insertViaUpsert, applySet_email])]

/-- The database of the C3 witness. -/
def c3wdb : DB :=
  { users := [{ email := "u@x", role := "user", status := "active",
                chefId := some "chef-1111", createdAt := 3 }],
    requests := [], orders := [] }

/-- The stored account of the C3 witness. -/
def c3acct : Account :=
  { email := "u@x", role := "user", status := "active",
    chefId := some "chef-1111", createdAt := 3 }

/-- The body of the C3 witness: only a profile field, no role/status. -/
def c3body : UserBody := { name := some "nm" }

/-- Witness for C3 (amended): syncing a profile field leaves role, status and
createdAt of the existing account untouched. -/
theorem c3_witness :
    findUser (putUsers c3wdb "u@x" c3body 7).2.users "u@x" =
      some (applySet { c3body with email := some "u@x" } 7 c3acct) ∧
    (applySet { c3body with email := some "u@x" } 7 c3acct).role =
      c3acct.role ∧
    (applySet { c3body with email := some "u@x" } 7 c3acct).status =
      c3acct.status ∧
    (applySet { c3body with email := some "u@x" } 7 c3acct).createdAt =
      c3acct.createdAt :=
  (c3_role_status_frame c3wdb "u@x" c3body 7).2.1 c3acct (by decide) (by decide)

/-! ### Claim C4 -/

/-- Claim C4: when the target account has role "admin", PATCH
/users/fraud/:email never modifies the stores, and an admin caller gets the
400 InvalidTransition answer, so status "fraud" is unreachable for admin
accounts through this operation. -/
theorem c4_admin_fraud_blocked (db : DB) (c e : String) (t : Account)
    (ht : findUser db.users e = some t) (hrole : t.role = "admin") :
    (patchUserFraud db c e).2 = db ∧
    (roleOfCaller db c = some "admin" →
      patchUserFraud db c e = (Resp.badRequest "Cannot mark admin as fraud", db)) := by
  unfold patchUserFraud
  by_cases hadm : (roleOfCaller db c != some "admin") = true
  · rw [if_pos hadm]
    exact ⟨rfl, fun hcall => absurd hadm (by simp [hcall])⟩
  · rw [if_neg hadm, ht]
    dsimp only
    rw [if_pos (show (t.role == "admin") = true by rw [hrole]; decide)]
    exact ⟨rfl, fun _ => rfl⟩

/-- The database of the C4 witness: an admin caller and an admin target. -/
def c4db : DB :=
  { users := [{ email := "adm@x", role := "admin", status := "active" },
              { email := "boss@x", role := "admin", status := "active" }],
    requests := [], orders := [] }

/-- Witness for C4. -/
theorem c4_witness :
    (patchUserFraud c4db "adm@x" "boss@x").2 = c4db ∧
    (roleOfCaller c4db "adm@x" = some "admin" →
      patchUserFraud c4db "adm@x" "boss@x" =
        (Resp.badRequest "Cannot mark admin as fraud", c4db)) :=
  c4_admin_fraud_blocked c4db "adm@x" "boss@x"
    { email := "boss@x", role := "admin", status := "active" }
    (by decide) (by decide)

/-! ### Claim C5 -/

instance (db : DB) (i : Nat) : Decidable (orderPaid db i) :=
  inferInstanceAs
    (Decidable ((findOrder db.orders i).map Order.paymentStatus = some "paid"))

/-- One order operation never moves a paid order away from "paid". -/
theorem orderPaid_step (db : DB) (i : Nat) (op : OrderOp)
    (h : orderPaid db i) : orderPaid (applyOrderOp db op) i := by
  obtain ⟨o, ho, hpay⟩ := Option.map_eq_some'.mp h
  cases op with
  | place e b now oid =>
    show orderPaid (postOrders db e b now oid).2 i
    unfold orderPaid postOrders insertOrder
    by_cases hcol : (db.orders.any fun x => x.oid == (mkOrder e b now oid).oid) = true
    · simp only [if_pos hcol]
      exact h
    · simp only [if_neg hcol]
      exact Option.map_eq_some'.mpr ⟨o, find?_append_some _ _ _ _ ho, hpay⟩
  | setStatus oid st =>
    simp only [findOrder] at ho
    show (findOrder (patchOrderStatus db oid st).2.orders i).map
      Order.paymentStatus = some "paid"
    simp only [patchOrderStatus, findOrder]
    obtain ⟨b', hb, hPb⟩ := find?_updateFirst_pres (fun x : Order => x.oid == i)
      (fun x => x.oid == oid) (fun x => { x with orderStatus := st })
      (fun x => x.paymentStatus = "paid") (fun x => rfl) (fun x hx => hx)
      db.orders o ho hpay
    exact Option.map_eq_some'.mpr ⟨b', hb, hPb⟩
  | pay oid =>
    simp only [findOrder] at ho
    show (findOrder (payOrder db oid).2.orders i).map
      Order.paymentStatus = some "paid"
    simp only [payOrder, findOrder]
    obtain ⟨b', hb, hPb⟩ := find?_updateFirst_pres (fun x : Order => x.oid == i)
      (fun x => x.oid == oid) (fun x => { x with paymentStatus := "paid" })
      (fun x => x.paymentStatus = "paid") (fun x => rfl) (fun x _ => rfl)
      db.orders o ho hpay
    exact Option.map_eq_some'.mpr ⟨b', hb, hPb⟩

/-- Claim C5: along any sequence of place / setFulfillmentStatus / markPaid
operations, an order whose paymentStatus is "paid" stays "paid"; in
particular re-invoking markPaid (ops = [pay i]) leaves it "paid". -/
theorem c5_paymentStatus_one_way (db : DB) (i : Nat) (ops : List OrderOp)
    (h : orderPaid db i) : orderPaid (applyOrderOps db ops) i := by
  induction ops generalizing db with
  | nil => exact h
  | cons op ops ih => exact ih (applyOrderOp db op) (orderPaid_step db i op h)

/-- The database of the C5 witness: one already-paid order. -/
def c5db : DB :=
  { users := [], requests := [],
    orders := [{ oid := 1, userEmail := "b@x", price := 10, quantity := 2,
                 orderStatus := "pending", paymentStatus := "paid" }] }

/-- Witness for C5: re-paying, restatusing and placing never unpay order 1. -/
theorem c5_witness :
    orderPaid c5db 1 ∧
    orderPaid (applyOrderOps c5db
      [OrderOp.pay 1, OrderOp.setStatus 1 "delivered",
       OrderOp.place "c@x" {} 9 2, OrderOp.pay 1]) 1 :=
  ⟨by decide, c5_paymentStatus_one_way c5db 1
    [OrderOp.pay 1, OrderOp.setStatus 1 "delivered",
     OrderOp.place "c@x" {} 9 2, OrderOp.pay 1] (by decide)⟩

/-! ### Claim C9 -/

/-- Claim C9: the order POST /orders stores has orderStatus "pending",
paymentStatus "Pending", orderTime now and the token email, whatever the
body supplied for those fields. -/
theorem c9_place_overwrites (db : DB) (tok : String) (b : OrderBody)
    (now oid : Nat) (hfresh : findOrder db.orders oid = none) :
    findOrder (postOrders db tok b now oid).2.orders oid =
      some (mkOrder tok b now oid) ∧
    (mkOrder tok b now oid).orderStatus = "pending" ∧
    (mkOrder tok b now oid).paymentStatus = "Pending" ∧
    (mkOrder tok b now oid).orderTime = now ∧
    (mkOrder tok b now oid).userEmail = tok := by
  refine ⟨?_, rfl, rfl, rfl, rfl⟩
  unfold postOrders insertOrder
  have hany : (db.orders.any fun x => x.oid == (mkOrder tok b now oid).oid) =
      false := by
    rw [List.any_eq_false]
    intro x hx
    have hnp := List.find?_eq_none.mp hfresh x hx
    simpa using hnp
  simp only [hany, Bool.false_eq_true, if_false]
  show (db.orders ++ [mkOrder tok b now oid]).find? (fun o => o.oid == oid) =
    some (mkOrder tok b now oid)
  rw [find?_append_none _ _ _ hfresh]
  rw [List.find?_cons_of_pos _ (by simp [mkOrder])]

/-- The database of the C9 witness: no orders yet. -/
def c9db : DB := { users := [], requests := [], orders := [] }

/-- The body of the C9 witness: it tries to smuggle in orderStatus
"delivered" and paymentStatus "paid". -/
def c9body : OrderBody :=
  { price := 10, quantity := 2, orderStatus := "delivered",
    paymentStatus := "paid" }

/-- Witness for C9. -/
theorem c9_witness :
    findOrder (postOrders c9db "b@x" c9body 3 5).2.orders 5 =
      some (mkOrder "b@x" c9body 3 5) ∧
    (mkOrder "b@x" c9body 3 5).orderStatus = "pending" ∧
    (mkOrder "b@x" c9body 3 5).paymentStatus = "Pending" ∧
    (mkOrder "b@x" c9body 3 5).orderTime = 3 ∧
    (mkOrder "b@x" c9body 3 5).userEmail = "b@x" :=
  c9_place_overwrites c9db "b@x" c9body 3 5 (by decide)

/-! ### Claim C10 -/

/-- Claim C10: PUT /users keys the write by the verified token email — the
body-supplied email is overwritten before any store access, so two calls
differing only in the body email are indistinguishable, and an insert stores
the token email. -/
theorem c10_body_email_ignored (db : DB) (tok : String) (b : UserBody)
    (e₁ e₂ : Option String) (now : Nat) :
    putUsers db tok { b with email := e₁ } now =
      putUsers db tok { b with email := e₂ } now ∧
    (insertViaUpsert { b with email := some tok } now).email = tok :=
  ⟨rfl, rfl⟩

end LocalChefBazaar
